import Mathlib

/-!
Shallow embedding of the Researchify backend (`src/main.py`): a FastAPI
resource layer over a Firestore document store plus a Firebase identity
provider.  Documents are modelled as association lists from field names to
JSON-like values; each Firestore collection is an association list from
document identifiers to documents.  External calls (identity provider,
store reads/writes) may fail; each handler takes the outcomes of its
external calls as explicit parameters.  A Python exception raised by an
external call inside a `try` block is mapped by the handler's `except`
clause; one raised outside any `try` escapes the handler (`Resp.unhandled`,
which FastAPI would surface as an HTTP 500, not one of the layer's error
kinds).
-/

namespace Researchify

/-- A JSON-like field value as stored in a Firestore document. -/
inductive Value where
  | str : String → Value
  | strList : List String → Value
deriving DecidableEq, Repr

/-- A document: an ordered field map, as a Python dict in insertion order. -/
abbrev Doc := List (String × Value)

/-- Look up a field of a document (first occurrence of the key). -/
def lookupField (d : Doc) (k : String) : Option Value :=
  (List.find? (fun p => p.1 == k) d).map (·.2)

/-- Set a single field of a document: overwrite in place if the key is
present, append otherwise (Python dict assignment semantics). -/
def setField (d : Doc) (k : String) (v : Value) : Doc :=
  if List.any d (fun p => p.1 == k) then
    List.map (fun p => if p.1 == k then (k, v) else p) d
  else
    d ++ [(k, v)]

/-- Merge `new` into `old`: every field of `new` is written into `old`,
fields of `old` not mentioned in `new` are kept.  This is both Python's
`{**old, **new}` and Firestore's merge-update semantics. -/
def mergeDoc (old new : Doc) : Doc :=
  List.foldl (fun acc p => setField acc p.1 p.2) old new

/-- A Firestore collection: document identifiers mapped to documents. -/
abbrev Coll := List (String × Doc)

/-- Model of `collection.document(id).get()` when the call succeeds: the document
with that identifier, if it exists. -/
def lookupDoc (c : Coll) (id : String) : Option Doc :=
  (List.find? (fun p => p.1 == id) c).map (·.2)

/-- Model of `collection.document(id).set(d)`: create or fully overwrite. -/
def setDoc (c : Coll) (id : String) (d : Doc) : Coll :=
  if List.any c (fun p => p.1 == id) then
    List.map (fun p => if p.1 == id then (id, d) else p) c
  else
    (id, d) :: c

/-- Model of `collection.add(d)` with the store-generated fresh identifier `id`. -/
def addDoc (c : Coll) (id : String) (d : Doc) : Coll :=
  (id, d) :: c

/-- Model of `collection.document(id).update(upd)`: merge `upd` into the stored
document (the handlers only call this after checking existence). -/
def updateDocIn (c : Coll) (id : String) (upd : Doc) : Coll :=
  List.map (fun p => if p.1 == id then (p.1, mergeDoc p.2 upd) else p) c

/-- Model of `collection.document(id).delete()`. -/
def deleteDoc (c : Coll) (id : String) : Coll :=
  List.filter (fun p => !(p.1 == id)) c

/-- Model of `collection.where(field, "==", v).stream()`: all documents whose
`field` equals `v`, in store order. -/
def whereEq (c : Coll) (k : String) (v : Value) : Coll :=
  List.filter (fun p => lookupField p.2 k == some v) c

/-- Model of the response dict that puts `"id": doc.id` before the stored
fields: the document annotated with its identifier. -/
def withId (id : String) (d : Doc) : Doc :=
  mergeDoc [("id", Value.str id)] d

/-- The persistent state visible to the layer: the three Firestore
collections plus the set of accounts held by the identity provider. -/
structure Store where
  users : Coll
  research_listings : Coll
  applications : Coll
  authUsers : List String
deriving DecidableEq, Repr

/-- Outcome of one HTTP request.  `err code detail` is a raised
`HTTPException(status_code, detail)`; `unhandled e` is a Python exception
that escaped the handler because no `try` enclosed the failing call. -/
inductive Resp (α : Type) where
  | ok : α → Resp α
  | err : Nat → String → Resp α
  | unhandled : String → Resp α
deriving DecidableEq, Repr

/-- Request body of `POST /signup` (`UserSignup` pydantic model). -/
structure UserSignup where
  email : String
  password : String
  name : String
  role : String
  research_interests : List String
deriving DecidableEq, Repr

/-- Request body of `POST /listings` (`ResearchListing` pydantic model). -/
structure ResearchListing where
  title : String
  description : String
  professor_id : String
  eligibility : List String
  tags : List String
deriving DecidableEq, Repr

/-- Request body of `PATCH /listings/{id}` (`ResearchListingUpdate`).
Every field is optional and nullable: `none` means the field was not
supplied in the request body, `some none` means it was supplied as JSON
`null`, `some (some v)` means it was supplied with value `v`. -/
structure ResearchListingUpdate where
  title : Option (Option String)
  description : Option (Option String)
  professor_id : Option (Option String)
  eligibility : Option (Option (List String))
  tags : Option (Option (List String))
deriving DecidableEq, Repr

/-- Request body of `POST /applications` (`ResearchApplication`). -/
structure ResearchApplication where
  student_id : String
  listing_id : String
  student_name : String
  student_email : String
  statement_of_purpose : String
deriving DecidableEq, Repr

/-- Model of `listing.dict()` for a full `ResearchListing`. -/
def ResearchListing.toDoc (l : ResearchListing) : Doc :=
  [("title", Value.str l.title),
   ("description", Value.str l.description),
   ("professor_id", Value.str l.professor_id),
   ("eligibility", Value.strList l.eligibility),
   ("tags", Value.strList l.tags)]

/-- Model of `application.dict()` for a `ResearchApplication`. -/
def ResearchApplication.toDoc (a : ResearchApplication) : Doc :=
  [("student_id", Value.str a.student_id),
   ("listing_id", Value.str a.listing_id),
   ("student_name", Value.str a.student_name),
   ("student_email", Value.str a.student_email),
   ("statement_of_purpose", Value.str a.statement_of_purpose)]

/-- One optional entry of `listing.dict(exclude_unset=True)`: present with
its (possibly null) value iff the field was supplied in the request. -/
def unsetEntry (k : String) (v : Option (Option Value)) : List (String × Option Value) :=
  match v with
  | none => []
  | some w => [(k, w)]

/-- Model of `listing.dict(exclude_unset=True)`: the supplied fields, in model
declaration order, with `null` values kept as `none`. -/
def ResearchListingUpdate.dictExcludeUnset (u : ResearchListingUpdate) :
    List (String × Option Value) :=
  unsetEntry "title" (u.title.map (Option.map Value.str)) ++
  unsetEntry "description" (u.description.map (Option.map Value.str)) ++
  unsetEntry "professor_id" (u.professor_id.map (Option.map Value.str)) ++
  unsetEntry "eligibility" (u.eligibility.map (Option.map Value.strList)) ++
  unsetEntry "tags" (u.tags.map (Option.map Value.strList))

/-- Model of the filtering comprehension over `listing.dict(exclude_unset=True)`:
the supplied fields whose value is not null. -/
def ResearchListingUpdate.updateData (u : ResearchListingUpdate) : Doc :=
  List.filterMap (fun p => Option.map (fun v => (p.1, v)) p.2) u.dictExcludeUnset

/-- Handler for `POST /signup` (`signup` in `main.py`).  `createUserRes` is the outcome
of `auth.create_user` (the identity-provider call): `Except.ok uid` means
the provider created an account and issued `uid`; `setFault = some e`
means the subsequent Firestore `set` raised exception `e`.  Both calls sit
inside the handler's `try`, so any exception becomes a 400. -/
def signup (createUserRes : Except String String) (setFault : Option String)
    (user : UserSignup) (s : Store) : Resp Doc × Store :=
  match createUserRes with
  | Except.error e => (Resp.err 400 e, s)
  | Except.ok uid =>
    let s1 : Store := { s with authUsers := uid :: s.authUsers }
    match setFault with
    | some e => (Resp.err 400 e, s1)
    | none =>
      let user_data : Doc :=
        [("name", Value.str user.name),
         ("email", Value.str user.email),
         ("role", Value.str user.role),
         ("research_interests", Value.strList user.research_interests)]
      (Resp.ok [("message", Value.str "User registered successfully"),
                ("uid", Value.str uid)],
       { s1 with users := setDoc s1.users uid user_data })

/-- Handler for `POST /listings` (`create_listing`).  `addRes` is the outcome of
`collection.add`: `Except.ok id` is the store-generated identifier of the
new document; an exception is caught by the `try` and becomes a 400. -/
def create_listing (addRes : Except String String) (listing : ResearchListing)
    (s : Store) : Resp Doc × Store :=
  match addRes with
  | Except.error e => (Resp.err 400 e, s)
  | Except.ok id =>
    (Resp.ok [("message", Value.str "Research listing created"),
              ("listing_id", Value.str id)],
     { s with research_listings := addDoc s.research_listings id listing.toDoc })

/-- Handler for `GET /listings` (`get_all_listings`).  The `stream` call sits inside a
`try`, so a store failure becomes a 400. -/
def get_all_listings (streamFault : Option String) (s : Store) :
    Resp (List Doc) × Store :=
  match streamFault with
  | some e => (Resp.err 400 e, s)
  | none =>
    (Resp.ok (List.map (fun p => withId p.1 p.2) s.research_listings), s)

/-- Handler for the single-listing GET route (`get_listing`).  There is no `try` in
this handler: a failing store read escapes unhandled. -/
def get_listing (getFault : Option String) (listing_id : String) (s : Store) :
    Resp Doc × Store :=
  match getFault with
  | some e => (Resp.unhandled e, s)
  | none =>
    match lookupDoc s.research_listings listing_id with
    | none => (Resp.err 404 "Listing not found", s)
    | some d => (Resp.ok (withId listing_id d), s)

/-- Handler for the listing PATCH route (`update_listing`).  No `try` in this
handler either: a failing `get` or `update` escapes unhandled. -/
def update_listing (getFault updFault : Option String) (listing_id : String)
    (listing : ResearchListingUpdate) (s : Store) : Resp Doc × Store :=
  match getFault with
  | some e => (Resp.unhandled e, s)
  | none =>
    match lookupDoc s.research_listings listing_id with
    | none => (Resp.err 404 "Listing not found", s)
    | some _ =>
      let update_data := listing.updateData
      if update_data.isEmpty then
        (Resp.err 400 "No valid fields provided for update", s)
      else
        match updFault with
        | some e => (Resp.unhandled e, s)
        | none =>
          (Resp.ok [("message", Value.str "Listing updated successfully")],
           { s with research_listings :=
               updateDocIn s.research_listings listing_id update_data })

/-- Truthiness of the `user_id` header value: `Header(None)` yields `None`
when the header is absent, and `if not user_id` also treats the empty
string as missing. -/
def headerTruthy : Option String → Bool
  | none => false
  | some v => !(v == "")

/-- Handler for the listing DELETE route (`delete_listing`).  `user_id` is the
raw value of the `user_id` request header.  No `try`: a failing store call
escapes unhandled.  Checks, in order: header truthy (else 401), caller
document exists (else 404), caller role is "professor" (else 403), listing
exists (else 404); then deletes, with no ownership check. -/
def delete_listing (userGetFault listGetFault delFault : Option String)
    (listing_id : String) (user_id : Option String) (s : Store) :
    Resp Doc × Store :=
  if !(headerTruthy user_id) then
    (Resp.err 401 "User ID missing in request headers", s)
  else
    match userGetFault with
    | some e => (Resp.unhandled e, s)
    | none =>
      match lookupDoc s.users (user_id.getD "") with
      | none => (Resp.err 404 "User not found", s)
      | some user_data =>
        if !(lookupField user_data "role" == some (Value.str "professor")) then
          (Resp.err 403 "Only professors can delete listings", s)
        else
          match listGetFault with
          | some e => (Resp.unhandled e, s)
          | none =>
            match lookupDoc s.research_listings listing_id with
            | none => (Resp.err 404 "Listing not found", s)
            | some _ =>
              match delFault with
              | some e => (Resp.unhandled e, s)
              | none =>
                (Resp.ok [("message", Value.str "Listing deleted successfully")],
                 { s with research_listings :=
                     deleteDoc s.research_listings listing_id })

/-- Handler for `POST /applications` (`apply_to_listing`).  `addRes` as in
`create_listing`; the `try` maps any exception to a 400. -/
def apply_to_listing (addRes : Except String String)
    (application : ResearchApplication) (s : Store) : Resp Doc × Store :=
  match addRes with
  | Except.error e => (Resp.err 400 e, s)
  | Except.ok id =>
    (Resp.ok [("message", Value.str "Application submitted successfully"),
              ("application_id", Value.str id)],
     { s with applications := addDoc s.applications id application.toDoc })

/-- Handler for the per-listing applications GET route (`get_applications_for_listing`).
The filtered `stream` sits inside a `try`, so a failure becomes a 400. -/
def get_applications_for_listing (streamFault : Option String)
    (listing_id : String) (s : Store) : Resp (List Doc) × Store :=
  match streamFault with
  | some e => (Resp.err 400 e, s)
  | none =>
    (Resp.ok (List.map (fun p => withId p.1 p.2)
       (whereEq s.applications "listing_id" (Value.str listing_id))), s)

/-- Handler for the per-student applications GET route (`get_student_applications`).
Same shape as the per-listing query, filtering on `student_id`. -/
def get_student_applications (streamFault : Option String)
    (student_id : String) (s : Store) : Resp (List Doc) × Store :=
  match streamFault with
  | some e => (Resp.err 400 e, s)
  | none =>
    (Resp.ok (List.map (fun p => withId p.1 p.2)
       (whereEq s.applications "student_id" (Value.str student_id))), s)

/-- Handler for the application DELETE route (`delete_application`).  No
`try` and no caller identity of any kind: existence check (else 404), then
unconditional delete. -/
def delete_application (getFault delFault : Option String)
    (application_id : String) (s : Store) : Resp Doc × Store :=
  match getFault with
  | some e => (Resp.unhandled e, s)
  | none =>
    match lookupDoc s.applications application_id with
    | none => (Resp.err 404 "Application not found", s)
    | some _ =>
      match delFault with
      | some e => (Resp.unhandled e, s)
      | none =>
        (Resp.ok [("message", Value.str "Application deleted successfully")],
         { s with applications := deleteDoc s.applications application_id })

/-- A user document with role "professor", as `signup` would store it. -/
def profDoc : Doc :=
  [("name", Value.str "Ada"), ("email", Value.str "ada@u.edu"),
   ("role", Value.str "professor"), ("research_interests", Value.strList [])]

/-- A user document with role "student". -/
def studentDoc : Doc :=
  [("name", Value.str "Bo"), ("email", Value.str "bo@u.edu"),
   ("role", Value.str "student"), ("research_interests", Value.strList ["ml"])]

/-- A stored research listing document. -/
def listingDoc : Doc :=
  [("title", Value.str "AI Research"), ("description", Value.str "desc"),
   ("professor_id", Value.str "p1"), ("eligibility", Value.strList ["senior"]),
   ("tags", Value.strList ["ml"])]

/-- A stored application document for listing "L1". -/
def appDoc : Doc :=
  [("student_id", Value.str "s1"), ("listing_id", Value.str "L1"),
   ("student_name", Value.str "Bo"), ("student_email", Value.str "bo@u.edu"),
   ("statement_of_purpose", Value.str "sop")]

/-- A concrete store used to instantiate the theorems. -/
def sampleStore : Store :=
  { users := [("p1", profDoc), ("s1", studentDoc)],
    research_listings := [("L1", listingDoc)],
    applications := [("A1", appDoc)],
    authUsers := ["p1", "s1"] }

/-- The store with nothing in it. -/
def emptyStore : Store :=
  { users := [], research_listings := [], applications := [], authUsers := [] }

/-- A `PATCH` body supplying no field at all except a null `professor_id`. -/
def nullishUpdate : ResearchListingUpdate :=
  { title := none, description := none, professor_id := some none,
    eligibility := none, tags := none }

/-- A `PATCH` body supplying a new title, a null description, nothing else. -/
def titleUpdate : ResearchListingUpdate :=
  { title := some (some "New Title"), description := some none,
    professor_id := none, eligibility := none, tags := none }

/- ------------------------------------------------------------------ -/
/- Helper lemmas about the association-list operations.                -/
/- ------------------------------------------------------------------ -/
theorem find?_overwriteKey {β : Type} (l : List (String × β)) (k : String) (b : β)
    (k' : String) :
    List.find? (fun p => p.1 == k') (List.map (fun p => if p.1 == k then (k, b) else p) l)
      = if k' = k then Option.map (fun _ => (k, b)) (List.find? (fun p => p.1 == k) l)
        else List.find? (fun p => p.1 == k') l := by
  induction l with
  | nil => by_cases hk : k' = k <;> simp [hk]
  | cons a t ih =>
    simp only [List.map_cons]
    by_cases hak : a.1 = k
    · have hmap : (if (a.1 == k) = true then (k, b) else a) = (k, b) := by
        simp [hak]
      rw [hmap]
      by_cases hk : k' = k
      · subst hk
        rw [List.find?_cons_of_pos _ (by simp), List.find?_cons_of_pos _ (by simp [hak]),
          if_pos rfl]
        rfl
      · rw [List.find?_cons_of_neg _ (by simp; exact fun h => hk h.symm), ih,
          if_neg hk, if_neg hk,
          List.find?_cons_of_neg _ (by simp [hak]; exact fun h => hk h.symm)]
    · have hmap : (if (a.1 == k) = true then (k, b) else a) = a := by
        simp [hak]
      rw [hmap]
      by_cases hak' : a.1 = k'
      · have hk : ¬ k' = k := fun h => hak (h ▸ hak')
        rw [List.find?_cons_of_pos _ (by simp [hak']), if_neg hk,
          List.find?_cons_of_pos _ (by simp [hak'])]
      · rw [List.find?_cons_of_neg _ (by simp [hak']), ih]
        by_cases hk : k' = k
        · rw [if_pos hk, if_pos hk, List.find?_cons_of_neg _ (by simp [hak])]
        · rw [if_neg hk, if_neg hk, List.find?_cons_of_neg _ (by simp [hak'])]

theorem find?_key_eq_none {β : Type} (l : List (String × β)) (k : String)
    (h : List.any l (fun p => p.1 == k) = false) :
    List.find? (fun p => p.1 == k) l = none := by
  rw [List.find?_eq_none]
  intro x hx hxk
  have hcontra : List.any l (fun p => p.1 == k) = true :=
    List.any_eq_true.mpr ⟨x, hx, by simpa using hxk⟩
  rw [h] at hcontra
  exact Bool.false_ne_true hcontra

theorem lookupField_setField (d : Doc) (k : String) (v : Value) (k' : String) :
    lookupField (setField d k v) k' = if k' = k then some v else lookupField d k' := by
  unfold setField
  split
  case isTrue h =>
    unfold lookupField
    rw [find?_overwriteKey]
    by_cases hk : k' = k
    · subst hk
      rw [if_pos rfl, if_pos rfl]
      rcases ha : List.find? (fun p => p.1 == k') d with _ | a
      · exfalso
        rcases List.any_eq_true.mp h with ⟨x, hx, hxk⟩
        rw [List.find?_eq_none] at ha
        exact ha x hx (by simpa using hxk)
      · rw [ha]
        rfl
    · rw [if_neg hk, if_neg hk]
  case isFalse h =>
    unfold lookupField
    rw [List.find?_append]
    by_cases hk : k' = k
    · subst hk
      rw [find?_key_eq_none d k' (Bool.eq_false_iff.mpr h)]
      rw [if_pos rfl]
      rw [List.find?_cons_of_pos _ (by simp)]
      rfl
    · have hone : List.find? (fun p => p.1 == k') [(k, v)] = none := by
        rw [List.find?_cons_of_neg _ (by simp; exact fun hkk => hk hkk.symm)]
        rfl
      rw [hone, Option.or_none, if_neg hk]

theorem lookupField_mergeDoc_notMem (new : Doc) (old : Doc) (k : String)
    (h : k ∉ List.map Prod.fst new) :
    lookupField (mergeDoc old new) k = lookupField old k := by
  induction new generalizing old with
  | nil => rfl
  | cons a t ih =>
    simp only [List.map_cons, List.mem_cons, not_or] at h
    show lookupField (mergeDoc (setField old a.1 a.2) t) k = lookupField old k
    rw [ih (setField old a.1 a.2) h.2, lookupField_setField]
    rw [if_neg h.1]

theorem lookupField_mergeDoc_mem (new : Doc) (old : Doc) (k : String) (v : Value)
    (hnd : (List.map Prod.fst new).Nodup) (h : (k, v) ∈ new) :
    lookupField (mergeDoc old new) k = some v := by
  induction new generalizing old with
  | nil => cases h
  | cons a t ih =>
    rw [List.map_cons, List.nodup_cons] at hnd
    cases h with
    | head =>
      show lookupField (mergeDoc (setField old k v) t) k = some v
      rw [lookupField_mergeDoc_notMem t (setField old k v) k hnd.1,
        lookupField_setField, if_pos rfl]
    | tail _ hmem =>
      exact ih (setField old a.1 a.2) hnd.2 hmem

theorem lookupDoc_setDoc_self (c : Coll) (id : String) (d : Doc) :
    lookupDoc (setDoc c id d) id = some d := by
  unfold setDoc
  split
  case isTrue h =>
    unfold lookupDoc
    rw [find?_overwriteKey, if_pos rfl]
    rcases ha : List.find? (fun p => p.1 == id) c with _ | a
    · exfalso
      rcases List.any_eq_true.mp h with ⟨x, hx, hxk⟩
      rw [List.find?_eq_none] at ha
      exact ha x hx (by simpa using hxk)
    · rw [ha]
      rfl
  case isFalse h =>
    unfold lookupDoc
    rw [List.find?_cons_of_pos _ (by simp)]
    rfl

theorem lookupDoc_updateDocIn_self (c : Coll) (id : String) (upd : Doc) :
    lookupDoc (updateDocIn c id upd) id
      = Option.map (fun d => mergeDoc d upd) (lookupDoc c id) := by
  induction c with
  | nil => rfl
  | cons a t ih =>
    unfold updateDocIn at *
    rw [List.map_cons]
    by_cases h : a.1 = id
    · have hmap : (if (a.1 == id) = true then (a.1, mergeDoc a.2 upd) else a)
          = (a.1, mergeDoc a.2 upd) := by simp [h]
      rw [hmap]
      unfold lookupDoc
      rw [List.find?_cons_of_pos _ (by simp [h]), List.find?_cons_of_pos _ (by simp [h])]
      rfl
    · have hmap : (if (a.1 == id) = true then (a.1, mergeDoc a.2 upd) else a) = a := by
        simp [h]
      rw [hmap]
      unfold lookupDoc at *
      rw [List.find?_cons_of_neg _ (by simp [h]), List.find?_cons_of_neg _ (by simp [h])]
      exact ih

theorem lookupDoc_updateDocIn_ne (c : Coll) (id id' : String) (upd : Doc)
    (h : id' ≠ id) :
    lookupDoc (updateDocIn c id upd) id' = lookupDoc c id' := by
  induction c with
  | nil => rfl
  | cons a t ih =>
    unfold updateDocIn at *
    rw [List.map_cons]
    by_cases hk : a.1 = id
    · have hmap : (if (a.1 == id) = true then (a.1, mergeDoc a.2 upd) else a)
          = (a.1, mergeDoc a.2 upd) := by simp [hk]
      rw [hmap]
      have hne : ¬ a.1 = id' := fun hh => h (hh ▸ hk)
      unfold lookupDoc at *
      rw [List.find?_cons_of_neg _ (by simp [hne]), List.find?_cons_of_neg _ (by simp [hne])]
      exact ih
    · have hmap : (if (a.1 == id) = true then (a.1, mergeDoc a.2 upd) else a) = a := by
        simp [hk]
      rw [hmap]
      by_cases hk' : a.1 = id'
      · unfold lookupDoc
        rw [List.find?_cons_of_pos _ (by simp [hk']), List.find?_cons_of_pos _ (by simp [hk'])]
      · unfold lookupDoc at *
        rw [List.find?_cons_of_neg _ (by simp [hk']), List.find?_cons_of_neg _ (by simp [hk'])]
        exact ih

theorem lookupDoc_deleteDoc_ne (c : Coll) (id id' : String) (h : id' ≠ id) :
    lookupDoc (deleteDoc c id) id' = lookupDoc c id' := by
  induction c with
  | nil => rfl
  | cons a t ih =>
    unfold deleteDoc at *
    rw [List.filter_cons]
    by_cases hk : a.1 = id
    · rw [if_neg (by simp [hk])]
      have hne : ¬ a.1 = id' := fun hh => h (hh ▸ hk)
      unfold lookupDoc at *
      rw [List.find?_cons_of_neg _ (by simp [hne])]
      exact ih
    · rw [if_pos (by simp [hk])]
      by_cases hk' : a.1 = id'
      · unfold lookupDoc
        rw [List.find?_cons_of_pos _ (by simp [hk']), List.find?_cons_of_pos _ (by simp [hk'])]
      · unfold lookupDoc at *
        rw [List.find?_cons_of_neg _ (by simp [hk']), List.find?_cons_of_neg _ (by simp [hk'])]
        exact ih

theorem keys_filterMap_sublist {β : Type} (l : List (String × Option β)) :
    (List.map Prod.fst
        (List.filterMap (fun p => Option.map (fun v => (p.1, v)) p.2) l)).Sublist
      (List.map Prod.fst l) := by
  induction l with
  | nil => simp
  | cons a t ih =>
    rcases a with ⟨k, _ | v⟩
    · exact List.Sublist.cons k ih
    · exact List.Sublist.cons₂ k ih

theorem keys_unsetEntry_sublist (k : String) (v : Option (Option Value)) :
    (List.map Prod.fst (unsetEntry k v)).Sublist [k] := by
  cases v <;> simp [unsetEntry]

theorem keys_dictExcludeUnset_sublist (u : ResearchListingUpdate) :
    (List.map Prod.fst u.dictExcludeUnset).Sublist
      ["title", "description", "professor_id", "eligibility", "tags"] := by
  unfold ResearchListingUpdate.dictExcludeUnset
  simp only [List.map_append]
  have h1 := keys_unsetEntry_sublist "title" (u.title.map (Option.map Value.str))
  have h2 := keys_unsetEntry_sublist "description"
    (u.description.map (Option.map Value.str))
  have h3 := keys_unsetEntry_sublist "professor_id"
    (u.professor_id.map (Option.map Value.str))
  have h4 := keys_unsetEntry_sublist "eligibility"
    (u.eligibility.map (Option.map Value.strList))
  have h5 := keys_unsetEntry_sublist "tags" (u.tags.map (Option.map Value.strList))
  exact (((h1.append h2).append h3).append h4).append h5

theorem keys_updateData_nodup (u : ResearchListingUpdate) :
    (List.map Prod.fst u.updateData).Nodup := by
  have h1 := keys_filterMap_sublist u.dictExcludeUnset
  have h2 := keys_dictExcludeUnset_sublist u
  exact ((h1.trans h2).nodup (by decide))

theorem updateData_nil_of_nullish (u : ResearchListingUpdate)
    (h1 : u.title = none ∨ u.title = some none)
    (h2 : u.description = none ∨ u.description = some none)
    (h3 : u.professor_id = none ∨ u.professor_id = some none)
    (h4 : u.eligibility = none ∨ u.eligibility = some none)
    (h5 : u.tags = none ∨ u.tags = some none) :
    u.updateData = [] := by
  unfold ResearchListingUpdate.updateData ResearchListingUpdate.dictExcludeUnset
  rcases h1 with h1 | h1 <;> rcases h2 with h2 | h2 <;> rcases h3 with h3 | h3 <;>
    rcases h4 with h4 | h4 <;> rcases h5 with h5 | h5 <;>
    simp [h1, h2, h3, h4, h5, unsetEntry]

theorem mem_updateData_of_mem_dict (u : ResearchListingUpdate) (k : String) (v : Value)
    (h : (k, some v) ∈ u.dictExcludeUnset) : (k, v) ∈ u.updateData := by
  unfold ResearchListingUpdate.updateData
  exact List.mem_filterMap.mpr ⟨(k, some v), h, rfl⟩

theorem mem_dict_of_mem_updateData (u : ResearchListingUpdate) (k : String) (v : Value)
    (h : (k, v) ∈ u.updateData) : (k, some v) ∈ u.dictExcludeUnset := by
  unfold ResearchListingUpdate.updateData at h
  rcases List.mem_filterMap.mp h with ⟨⟨k', w⟩, hmem, heq⟩
  rcases w with _ | w
  · simp at heq
  · simp at heq
    rw [heq.1, heq.2] at hmem
    exact hmem

theorem mem_unsetEntry_key (k : String) (w : Option (Option Value))
    (p : String × Option Value) (h : p ∈ unsetEntry k w) : p.1 = k := by
  cases w with
  | none => cases h
  | some w =>
    cases h with
    | head => rfl
    | tail _ h => cases h

theorem mem_updateData_title (u : ResearchListingUpdate) (x : String)
    (h : u.title = some (some x)) : ("title", Value.str x) ∈ u.updateData := by
  apply mem_updateData_of_mem_dict
  unfold ResearchListingUpdate.dictExcludeUnset
  rw [h]
  simp [unsetEntry]

theorem mem_updateData_description (u : ResearchListingUpdate) (x : String)
    (h : u.description = some (some x)) :
    ("description", Value.str x) ∈ u.updateData := by
  apply mem_updateData_of_mem_dict
  unfold ResearchListingUpdate.dictExcludeUnset
  rw [h]
  simp [unsetEntry]

theorem mem_updateData_professor_id (u : ResearchListingUpdate) (x : String)
    (h : u.professor_id = some (some x)) :
    ("professor_id", Value.str x) ∈ u.updateData := by
  apply mem_updateData_of_mem_dict
  unfold ResearchListingUpdate.dictExcludeUnset
  rw [h]
  simp [unsetEntry]

theorem mem_updateData_eligibility (u : ResearchListingUpdate) (x : List String)
    (h : u.eligibility = some (some x)) :
    ("eligibility", Value.strList x) ∈ u.updateData := by
  apply mem_updateData_of_mem_dict
  unfold ResearchListingUpdate.dictExcludeUnset
  rw [h]
  simp [unsetEntry]

theorem mem_updateData_tags (u : ResearchListingUpdate) (x : List String)
    (h : u.tags = some (some x)) : ("tags", Value.strList x) ∈ u.updateData := by
  apply mem_updateData_of_mem_dict
  unfold ResearchListingUpdate.dictExcludeUnset
  rw [h]
  simp [unsetEntry]

theorem not_mem_keys_updateData (u : ResearchListingUpdate) (k : String)
    (hk1 : k = "title" → u.title = none ∨ u.title = some none)
    (hk2 : k = "description" → u.description = none ∨ u.description = some none)
    (hk3 : k = "professor_id" → u.professor_id = none ∨ u.professor_id = some none)
    (hk4 : k = "eligibility" → u.eligibility = none ∨ u.eligibility = some none)
    (hk5 : k = "tags" → u.tags = none ∨ u.tags = some none) :
    k ∉ List.map Prod.fst u.updateData := by
  intro hmem
  rcases List.mem_map.mp hmem with ⟨⟨k', v⟩, hp, hkeq⟩
  dsimp at hkeq
  subst hkeq
  have hd := mem_dict_of_mem_updateData u _ _ hp
  unfold ResearchListingUpdate.dictExcludeUnset at hd
  rcases List.mem_append.mp hd with hd | h5
  rcases List.mem_append.mp hd with hd | h4
  rcases List.mem_append.mp hd with hd | h3
  rcases List.mem_append.mp hd with h1 | h2
  · have := mem_unsetEntry_key _ _ _ h1
    rcases hk1 this with h | h <;> rw [h] at h1 <;> simp [unsetEntry] at h1
  · have := mem_unsetEntry_key _ _ _ h2
    rcases hk2 this with h | h <;> rw [h] at h2 <;> simp [unsetEntry] at h2
  · have := mem_unsetEntry_key _ _ _ h3
    rcases hk3 this with h | h <;> rw [h] at h3 <;> simp [unsetEntry] at h3
  · have := mem_unsetEntry_key _ _ _ h4
    rcases hk4 this with h | h <;> rw [h] at h4 <;> simp [unsetEntry] at h4
  · have := mem_unsetEntry_key _ _ _ h5
    rcases hk5 this with h | h <;> rw [h] at h5 <;> simp [unsetEntry] at h5

theorem delete_listing_eq_401 (s : Store) (lid : String) (uid? : Option String)
    (h : headerTruthy uid? = false) :
    delete_listing none none none lid uid? s
      = (Resp.err 401 "User ID missing in request headers", s) := by
  simp [delete_listing, h]

theorem delete_listing_eq_404_user (s : Store) (lid : String) (uid? : Option String)
    (h : headerTruthy uid? = true)
    (hu : lookupDoc s.users (uid?.getD "") = none) :
    delete_listing none none none lid uid? s = (Resp.err 404 "User not found", s) := by
  simp [delete_listing, h, hu]

theorem delete_listing_eq_403 (s : Store) (lid : String) (uid? : Option String)
    (ud : Doc) (h : headerTruthy uid? = true)
    (hu : lookupDoc s.users (uid?.getD "") = some ud)
    (hrole : lookupField ud "role" ≠ some (Value.str "professor")) :
    delete_listing none none none lid uid? s
      = (Resp.err 403 "Only professors can delete listings", s) := by
  simp [delete_listing, h, hu, hrole]

theorem delete_listing_eq_404_listing (s : Store) (lid : String) (uid? : Option String)
    (ud : Doc) (h : headerTruthy uid? = true)
    (hu : lookupDoc s.users (uid?.getD "") = some ud)
    (hrole : lookupField ud "role" = some (Value.str "professor"))
    (hl : lookupDoc s.research_listings lid = none) :
    delete_listing none none none lid uid? s = (Resp.err 404 "Listing not found", s) := by
  simp [delete_listing, h, hu, hrole, hl]

theorem delete_listing_eq_ok (s : Store) (lid : String) (uid? : Option String)
    (ud d : Doc) (h : headerTruthy uid? = true)
    (hu : lookupDoc s.users (uid?.getD "") = some ud)
    (hrole : lookupField ud "role" = some (Value.str "professor"))
    (hl : lookupDoc s.research_listings lid = some d) :
    delete_listing none none none lid uid? s
      = (Resp.ok [("message", Value.str "Listing deleted successfully")],
         { s with research_listings := deleteDoc s.research_listings lid }) := by
  simp [delete_listing, h, hu, hrole, hl]

/-- C1: `DeleteListing(id, callerUserId)` succeeds iff the caller header is
truthy, the caller resolves to a stored User, that User's role is exactly
"professor", and the listing exists; the failing conjuncts yield, in this
order, 401, 404, 403, 404; on success the listing is deleted with no check
that the caller equals the listing's `professor_id`. -/
theorem delete_listing_authorization (s : Store) (lid : String) (uid? : Option String) :
    ((∃ r, (delete_listing none none none lid uid? s).1 = Resp.ok r) ↔
      (headerTruthy uid? = true ∧
       ∃ ud, lookupDoc s.users (uid?.getD "") = some ud ∧
         lookupField ud "role" = some (Value.str "professor") ∧
         lookupDoc s.research_listings lid ≠ none)) ∧
    (headerTruthy uid? = false →
      delete_listing none none none lid uid? s
        = (Resp.err 401 "User ID missing in request headers", s)) ∧
    (headerTruthy uid? = true →
      lookupDoc s.users (uid?.getD "") = none →
      delete_listing none none none lid uid? s = (Resp.err 404 "User not found", s)) ∧
    (∀ ud, headerTruthy uid? = true →
      lookupDoc s.users (uid?.getD "") = some ud →
      lookupField ud "role" ≠ some (Value.str "professor") →
      delete_listing none none none lid uid? s
        = (Resp.err 403 "Only professors can delete listings", s)) ∧
    (∀ ud, headerTruthy uid? = true →
      lookupDoc s.users (uid?.getD "") = some ud →
      lookupField ud "role" = some (Value.str "professor") →
      lookupDoc s.research_listings lid = none →
      delete_listing none none none lid uid? s
        = (Resp.err 404 "Listing not found", s)) ∧
    (∀ ud d, headerTruthy uid? = true →
      lookupDoc s.users (uid?.getD "") = some ud →
      lookupField ud "role" = some (Value.str "professor") →
      lookupDoc s.research_listings lid = some d →
      delete_listing none none none lid uid? s
        = (Resp.ok [("message", Value.str "Listing deleted successfully")],
           { s with research_listings := deleteDoc s.research_listings lid })) := by
  refine ⟨?_, delete_listing_eq_401 s lid uid?, delete_listing_eq_404_user s lid uid?,
    fun ud => delete_listing_eq_403 s lid uid? ud,
    fun ud => delete_listing_eq_404_listing s lid uid? ud,
    fun ud d => delete_listing_eq_ok s lid uid? ud d⟩
  constructor
  · rintro ⟨r, hr⟩
    by_cases hh : headerTruthy uid? = true
    · rcases hu : lookupDoc s.users (uid?.getD "") with _ | ud
      · rw [delete_listing_eq_404_user s lid uid? hh hu] at hr
        cases hr
      · by_cases hrole : lookupField ud "role" = some (Value.str "professor")
        · rcases hl : lookupDoc s.research_listings lid with _ | d
          · rw [delete_listing_eq_404_listing s lid uid? ud hh hu hrole hl] at hr
            cases hr
          · exact ⟨hh, ud, rfl, hrole, fun hc => Option.noConfusion hc⟩
        · rw [delete_listing_eq_403 s lid uid? ud hh hu hrole] at hr
          cases hr
    · rw [delete_listing_eq_401 s lid uid? (Bool.eq_false_iff.mpr hh)] at hr
      cases hr
  · rintro ⟨hh, ud, hu, hrole, hl⟩
    rcases hl' : lookupDoc s.research_listings lid with _ | d
    · exact absurd hl' hl
    · rw [delete_listing_eq_ok s lid uid? ud d hh hu hrole hl']
      exact ⟨[("message", Value.str "Listing deleted successfully")], rfl⟩

/-- Witness for C1: on the sample store, the professor caller "p1" deletes
listing "L1", and a request with no header fails with 401. -/
theorem delete_listing_authorization_witness :
    delete_listing none none none "L1" (some "p1") sampleStore
      = (Resp.ok [("message", Value.str "Listing deleted successfully")],
         { sampleStore with research_listings := deleteDoc sampleStore.research_listings "L1" }) ∧
    delete_listing none none none "L1" none sampleStore
      = (Resp.err 401 "User ID missing in request headers", sampleStore) := by
  constructor
  · exact (delete_listing_authorization sampleStore "L1" (some "p1")).2.2.2.2.2
      profDoc listingDoc rfl rfl rfl rfl
  · exact (delete_listing_authorization sampleStore "L1" none).2.1 rfl

/-- C2: for every existing listing, an update whose supplied fields are all
null (or absent) fails with the 400 "no valid fields" error and leaves the
store unchanged. -/
theorem update_listing_no_valid_fields (s : Store) (lid : String) (d : Doc)
    (u : ResearchListingUpdate)
    (hd : lookupDoc s.research_listings lid = some d)
    (h1 : u.title = none ∨ u.title = some none)
    (h2 : u.description = none ∨ u.description = some none)
    (h3 : u.professor_id = none ∨ u.professor_id = some none)
    (h4 : u.eligibility = none ∨ u.eligibility = some none)
    (h5 : u.tags = none ∨ u.tags = some none) :
    update_listing none none lid u s
      = (Resp.err 400 "No valid fields provided for update", s) := by
  have hnil : u.updateData = [] := updateData_nil_of_nullish u h1 h2 h3 h4 h5
  simp [update_listing, hd, hnil]

/-- Witness for C2: on the sample store, updating listing "L1" with a body
whose only supplied field is a null `professor_id` yields the 400 error and
an unchanged store. -/
theorem update_listing_no_valid_fields_witness :
    update_listing none none "L1" nullishUpdate sampleStore
      = (Resp.err 400 "No valid fields provided for update", sampleStore) :=
  update_listing_no_valid_fields sampleStore "L1" listingDoc nullishUpdate rfl
    (Or.inl rfl) (Or.inl rfl) (Or.inr rfl) (Or.inl rfl) (Or.inl rfl)

/-- C4: for every signup accepted by the identity provider and store, the
returned identifier is the provider-issued `uid`, and that `uid` keys the
created User document, which holds exactly name, email, role and
research_interests — no password. -/
theorem signup_returns_uid_and_stores_doc (uid : String) (u : UserSignup) (s : Store) :
    (signup (Except.ok uid) none u s).1
      = Resp.ok [("message", Value.str "User registered successfully"),
                 ("uid", Value.str uid)] ∧
    lookupDoc (signup (Except.ok uid) none u s).2.users uid
      = some [("name", Value.str u.name), ("email", Value.str u.email),
              ("role", Value.str u.role),
              ("research_interests", Value.strList u.research_interests)] := by
  constructor
  · rfl
  · exact lookupDoc_setDoc_self s.users uid _

/-- C5: if the identity provider creates the account but the User-document
write fails, signup reports a generic 400, the user collection is untouched,
and the provider-side account remains with no compensating cleanup. -/
theorem signup_partial_failure_orphans_account (uid e : String) (u : UserSignup)
    (s : Store) :
    signup (Except.ok uid) (some e) u s
      = (Resp.err 400 e, { s with authUsers := uid :: s.authUsers }) ∧
    (signup (Except.ok uid) (some e) u s).2.users = s.users ∧
    uid ∈ (signup (Except.ok uid) (some e) u s).2.authUsers := by
  refine ⟨rfl, rfl, ?_⟩
  exact List.mem_cons_self uid s.authUsers

/-- C7: `DeleteApplication(id)` returns 404 and leaves the store unchanged
when no application has identifier `id`; otherwise it deletes the
application unconditionally — the handler takes no caller identity at all. -/
theorem delete_application_unconditional (s : Store) (aid : String) :
    (lookupDoc s.applications aid = none →
      delete_application none none aid s
        = (Resp.err 404 "Application not found", s)) ∧
    (∀ d, lookupDoc s.applications aid = some d →
      delete_application none none aid s
        = (Resp.ok [("message", Value.str "Application deleted successfully")],
           { s with applications := deleteDoc s.applications aid })) := by
  constructor
  · intro h
    simp [delete_application, h]
  · intro d h
    simp [delete_application, h]

/-- Witness for C7: on the sample store, deleting the missing application
"ZZ" yields 404 with the store unchanged, and deleting "A1" removes it. -/
theorem delete_application_unconditional_witness :
    delete_application none none "ZZ" sampleStore
      = (Resp.err 404 "Application not found", sampleStore) ∧
    delete_application none none "A1" sampleStore
      = (Resp.ok [("message", Value.str "Application deleted successfully")],
         { sampleStore with applications := deleteDoc sampleStore.applications "A1" }) := by
  constructor
  · exact (delete_application_unconditional sampleStore "ZZ").1 rfl
  · exact (delete_application_unconditional sampleStore "A1").2 appDoc rfl

/-- C10: a request whose `user_id` header is the empty string is rejected
with 401 exactly like an absent header, for every listing and store, before
any user or listing lookup — even a failing store call cannot change the
outcome, and the store is returned unchanged. -/
theorem delete_listing_empty_header (s : Store) (lid : String)
    (f1 f2 f3 : Option String) :
    delete_listing f1 f2 f3 lid (some "") s
      = (Resp.err 401 "User ID missing in request headers", s) := rfl

/-- C3: for every existing listing and every update supplying at least one
non-null field, `UpdateListing` merges exactly the non-null supplied fields:
each takes its new value, every unsupplied or null field keeps its prior
value, other documents and collections are untouched. -/
theorem update_listing_merge (s : Store) (lid : String) (d : Doc)
    (u : ResearchListingUpdate)
    (hd : lookupDoc s.research_listings lid = some d)
    (hne : u.updateData ≠ []) :
    (update_listing none none lid u s).1
        = Resp.ok [("message", Value.str "Listing updated successfully")] ∧
    lookupDoc (update_listing none none lid u s).2.research_listings lid
        = some (mergeDoc d u.updateData) ∧
    (∀ x, u.title = some (some x) →
      lookupField (mergeDoc d u.updateData) "title" = some (Value.str x)) ∧
    ((u.title = none ∨ u.title = some none) →
      lookupField (mergeDoc d u.updateData) "title" = lookupField d "title") ∧
    (∀ x, u.description = some (some x) →
      lookupField (mergeDoc d u.updateData) "description" = some (Value.str x)) ∧
    ((u.description = none ∨ u.description = some none) →
      lookupField (mergeDoc d u.updateData) "description"
        = lookupField d "description") ∧
    (∀ x, u.professor_id = some (some x) →
      lookupField (mergeDoc d u.updateData) "professor_id" = some (Value.str x)) ∧
    ((u.professor_id = none ∨ u.professor_id = some none) →
      lookupField (mergeDoc d u.updateData) "professor_id"
        = lookupField d "professor_id") ∧
    (∀ x, u.eligibility = some (some x) →
      lookupField (mergeDoc d u.updateData) "eligibility"
        = some (Value.strList x)) ∧
    ((u.eligibility = none ∨ u.eligibility = some none) →
      lookupField (mergeDoc d u.updateData) "eligibility"
        = lookupField d "eligibility") ∧
    (∀ x, u.tags = some (some x) →
      lookupField (mergeDoc d u.updateData) "tags" = some (Value.strList x)) ∧
    ((u.tags = none ∨ u.tags = some none) →
      lookupField (mergeDoc d u.updateData) "tags" = lookupField d "tags") ∧
    (∀ id, id ≠ lid →
      lookupDoc (update_listing none none lid u s).2.research_listings id
        = lookupDoc s.research_listings id) ∧
    (update_listing none none lid u s).2.users = s.users ∧
    (update_listing none none lid u s).2.applications = s.applications ∧
    (update_listing none none lid u s).2.authUsers = s.authUsers := by
  have hie : u.updateData.isEmpty = false := by
    cases hul : u.updateData with
    | nil => exact absurd hul hne
    | cons a t => rfl
  have hres : update_listing none none lid u s
      = (Resp.ok [("message", Value.str "Listing updated successfully")],
         { s with research_listings :=
             updateDocIn s.research_listings lid u.updateData }) := by
    simp [update_listing, hd, hie]
  rw [hres]
  have hnd := keys_updateData_nodup u
  refine ⟨rfl, ?_, ?_, ?_, ?_, ?_, ?_, ?_, ?_, ?_, ?_, ?_, ?_, rfl, rfl, rfl⟩
  · show lookupDoc (updateDocIn s.research_listings lid u.updateData) lid = _
    rw [lookupDoc_updateDocIn_self, hd]
    rfl
  · intro x hx
    exact lookupField_mergeDoc_mem _ d _ _ hnd (mem_updateData_title u x hx)
  · intro hx
    exact lookupField_mergeDoc_notMem _ d _
      (not_mem_keys_updateData u "title" (fun _ => hx)
        (fun hc => absurd hc (by decide)) (fun hc => absurd hc (by decide))
        (fun hc => absurd hc (by decide)) (fun hc => absurd hc (by decide)))
  · intro x hx
    exact lookupField_mergeDoc_mem _ d _ _ hnd (mem_updateData_description u x hx)
  · intro hx
    exact lookupField_mergeDoc_notMem _ d _
      (not_mem_keys_updateData u "description" (fun hc => absurd hc (by decide))
        (fun _ => hx) (fun hc => absurd hc (by decide))
        (fun hc => absurd hc (by decide)) (fun hc => absurd hc (by decide)))
  · intro x hx
    exact lookupField_mergeDoc_mem _ d _ _ hnd (mem_updateData_professor_id u x hx)
  · intro hx
    exact lookupField_mergeDoc_notMem _ d _
      (not_mem_keys_updateData u "professor_id" (fun hc => absurd hc (by decide))
        (fun hc => absurd hc (by decide)) (fun _ => hx)
        (fun hc => absurd hc (by decide)) (fun hc => absurd hc (by decide)))
  · intro x hx
    exact lookupField_mergeDoc_mem _ d _ _ hnd (mem_updateData_eligibility u x hx)
  · intro hx
    exact lookupField_mergeDoc_notMem _ d _
      (not_mem_keys_updateData u "eligibility" (fun hc => absurd hc (by decide))
        (fun hc => absurd hc (by decide)) (fun hc => absurd hc (by decide))
        (fun _ => hx) (fun hc => absurd hc (by decide)))
  · intro x hx
    exact lookupField_mergeDoc_mem _ d _ _ hnd (mem_updateData_tags u x hx)
  · intro hx
    exact lookupField_mergeDoc_notMem _ d _
      (not_mem_keys_updateData u "tags" (fun hc => absurd hc (by decide))
        (fun hc => absurd hc (by decide)) (fun hc => absurd hc (by decide))
        (fun hc => absurd hc (by decide)) (fun _ => hx))
  · intro id hid
    exact lookupDoc_updateDocIn_ne s.research_listings lid id u.updateData hid

/-- Witness for C3: on the sample store, an update supplying a new title
and a null description succeeds and the stored document becomes the merge
of the old document with the single title field. -/
theorem update_listing_merge_witness :
    (update_listing none none "L1" titleUpdate sampleStore).1
      = Resp.ok [("message", Value.str "Listing updated successfully")] ∧
    lookupDoc (update_listing none none "L1" titleUpdate sampleStore).2.research_listings "L1"
      = some (mergeDoc listingDoc titleUpdate.updateData) := by
  have h := update_listing_merge sampleStore "L1" listingDoc titleUpdate rfl (by decide)
  exact ⟨h.1, h.2.1⟩

/-- C6: `ListApplicationsForListing(X)` returns, with the store unchanged,
exactly the applications whose `listing_id` equals `X`, each annotated with
its identifier. -/
theorem get_applications_for_listing_exact (x : String) (s : Store) :
    (get_applications_for_listing none x s).2 = s ∧
    ∃ l, (get_applications_for_listing none x s).1 = Resp.ok l ∧
      ∀ d, d ∈ l ↔ ∃ id doc, (id, doc) ∈ s.applications ∧
        lookupField doc "listing_id" = some (Value.str x) ∧ d = withId id doc := by
  refine ⟨rfl, _, rfl, ?_⟩
  intro d
  constructor
  · intro hd
    rcases List.mem_map.mp hd with ⟨⟨id, doc⟩, hmem, heq⟩
    unfold whereEq at hmem
    rw [List.mem_filter] at hmem
    refine ⟨id, doc, hmem.1, ?_, heq.symm⟩
    have := hmem.2
    simpa using this
  · rintro ⟨id, doc, hmem, hfield, heq⟩
    apply List.mem_map.mpr
    refine ⟨(id, doc), ?_, heq.symm⟩
    unfold whereEq
    rw [List.mem_filter]
    exact ⟨hmem, by simpa using hfield⟩

/-- C8 is refuted by this concrete run: a store failure during
`GetListing` escapes the handler unmapped (an unhandled exception, surfaced
as HTTP 500), instead of being caught and mapped to one of the four defined
error kinds. -/
theorem get_listing_failure_escapes_unmapped :
    (get_listing (some "store unavailable") "L1" emptyStore).1
      = Resp.unhandled "store unavailable" ∧
    (get_listing (some "store unavailable") "L1" emptyStore).1
      ≠ Resp.err 400 "store unavailable" ∧
    (get_listing (some "store unavailable") "L1" emptyStore).1
      ≠ Resp.err 404 "Listing not found" := by
  refine ⟨rfl, ?_, ?_⟩ <;> intro hc <;> cases hc

/-- C8 (amended): the six operations whose handlers wrap their body in a
`try` (`RegisterUser`, `CreateListing`, `ListListings`, `Apply`,
`ListApplicationsForListing`, `ListApplicationsForStudent`) map every
identity-provider or store failure to the generic 400 error, but in
`GetListing`, `UpdateListing`, `DeleteListing` and `DeleteApplication` an
upstream failure escapes the handler unmapped. -/
theorem error_mapping_boundary (e : String) (s : Store) (u : UserSignup)
    (l : ResearchListing) (a : ResearchApplication) (up : ResearchListingUpdate)
    (x : String) :
    (signup (Except.error e) none u s).1 = Resp.err 400 e ∧
    (create_listing (Except.error e) l s).1 = Resp.err 400 e ∧
    (get_all_listings (some e) s).1 = Resp.err 400 e ∧
    (apply_to_listing (Except.error e) a s).1 = Resp.err 400 e ∧
    (get_applications_for_listing (some e) x s).1 = Resp.err 400 e ∧
    (get_student_applications (some e) x s).1 = Resp.err 400 e ∧
    (get_listing (some e) x s).1 = Resp.unhandled e ∧
    (update_listing (some e) none x up s).1 = Resp.unhandled e ∧
    (delete_listing (some e) none none x (some "u1") s).1 = Resp.unhandled e ∧
    (delete_application (some e) none x s).1 = Resp.unhandled e :=
  ⟨rfl, rfl, rfl, rfl, rfl, rfl, rfl, rfl, rfl, rfl⟩

/-- Keys of a full listing document never include "id", so annotating a
freshly created listing document just prepends the identifier. -/
theorem withId_toDoc (id : String) (l : ResearchListing) :
    withId id l.toDoc = ("id", Value.str id) :: l.toDoc := rfl

/-- C9: after a successful `CreateListing` returning `id`, `GetListing(id)`
succeeds and returns the created payload's five fields plus `"id" = id`. -/
theorem create_then_get_roundtrip (id : String) (l : ResearchListing) (s : Store) :
    (create_listing (Except.ok id) l s).1
      = Resp.ok [("message", Value.str "Research listing created"),
                 ("listing_id", Value.str id)] ∧
    (get_listing none id (create_listing (Except.ok id) l s).2).1
      = Resp.ok (("id", Value.str id) :: l.toDoc) := by
  constructor
  · rfl
  · have h : lookupDoc ((id, l.toDoc) :: s.research_listings) id = some l.toDoc := by
      unfold lookupDoc
      rw [List.find?_cons_of_pos _ (by simp)]
      rfl
    simp [get_listing, create_listing, addDoc, h, withId_toDoc]

end Researchify
